import Mathlib

/-!
Verification of `statjson.py`, a tool that reports filesystem metadata for a
list of paths as a JSON array and exits 0 when every path could be stat'ed,
1 otherwise.

The embedding below follows the source file closely:
* the `stat` module constants and `S_IFMT` mask,
* the `file_types` lookup table (a `defaultdict` whose default is
  `('?', "unknown")`); on the modelled platform (CPython >= 3.4 on a system
  without doors/event ports/whiteouts) `S_IFDOOR`, `S_IFPORT` and `S_IFWHT`
  are all `0`, so the three version-gated insertions all target key `0` and
  the last one wins: key `0` maps to `('w', "whiteout")`,
* `strmode`, the 11-character BSD-style permission string,
* `main`, modelled against an explicit environment (`Env`) providing the
  outcome of `os.stat`, `os.path.islink` and the `pwd`/`grp` lookups, and
* the `json.dumps(stats, indent=4, separators=(',', ': '))` serializer,
  modelled by `jsonDumps` with the separators as explicit parameters.

Python floats (timestamps, `st_birthtime`) are modelled as integers; no claim
depends on fractional time values.  String escaping in the serializer covers
the basic-multilingual-plane `ensure_ascii` behaviour; surrogate pairs for
astral code points are not modelled (all claims use ASCII data).
-/

/-- `stat.S_IFMT(mode)`: the file-type bits of a mode. -/
def S_IFMT (mode : Nat) : Nat := mode &&& 0o170000

def S_IFBLK : Nat := 0o060000
def S_IFCHR : Nat := 0o020000
def S_IFDIR : Nat := 0o040000
def S_IFIFO : Nat := 0o010000
def S_IFLNK : Nat := 0o120000
def S_IFREG : Nat := 0o100000
def S_IFSOCK : Nat := 0o140000
/- On the modelled platform the following three are `0` (CPython defines them
as `0` when the OS does not support the corresponding file type). -/
def S_IFDOOR : Nat := 0
def S_IFPORT : Nat := 0
def S_IFWHT : Nat := 0

def S_ISUID : Nat := 0o4000
def S_ISGID : Nat := 0o2000
def S_ISVTX : Nat := 0o1000
def S_IRUSR : Nat := 0o400
def S_IWUSR : Nat := 0o200
def S_IXUSR : Nat := 0o100
def S_IRGRP : Nat := 0o40
def S_IWGRP : Nat := 0o20
def S_IXGRP : Nat := 0o10
def S_IROTH : Nat := 0o4
def S_IWOTH : Nat := 0o2
def S_IXOTH : Nat := 0o1

/-- The `file_types` table: a `defaultdict` from file-type bits to
`(symbol, name)` with default `('?', "unknown")`.  After the version-gated
updates, key `0` (= `S_IFWHT`, the last insertion) holds `('w', "whiteout")`;
the `S_IFDOOR` and `S_IFPORT` insertions were overwritten since all three
constants are `0` here. -/
def file_types (fmt : Nat) : Char × String :=
  if fmt = S_IFBLK then ('b', "block_device")
  else if fmt = S_IFCHR then ('c', "char_device")
  else if fmt = S_IFDIR then ('d', "directory")
  else if fmt = S_IFIFO then ('p', "FIFO")
  else if fmt = S_IFLNK then ('l', "symlink")
  else if fmt = S_IFREG then ('-', "regular_file")
  else if fmt = S_IFSOCK then ('s', "socket")
  else if fmt = S_IFWHT then ('w', "whiteout")
  else ('?', "unknown")

/-- Python's `('Ss' if c else '-x')[bool(b)]`: pick index 0 or 1 out of a
two-character string. -/
def pick2 (s : String) (b : Bool) : Char :=
  s.data.getD (if b then 1 else 0) '?'

/-- `strmode(mode)` from the source: type symbol, then the nine permission
characters, then a trailing space. -/
def strmode (mode : Nat) : String :=
  String.singleton (file_types (S_IFMT mode)).1
    ++ (if mode &&& S_IRUSR ≠ 0 then "r" else "-")
    ++ (if mode &&& S_IWUSR ≠ 0 then "w" else "-")
    ++ String.singleton
        (pick2 (if mode &&& S_ISUID ≠ 0 then "Ss" else "-x") (mode &&& S_IXUSR ≠ 0))
    ++ (if mode &&& S_IRGRP ≠ 0 then "r" else "-")
    ++ (if mode &&& S_IWGRP ≠ 0 then "w" else "-")
    ++ String.singleton
        (pick2 (if mode &&& S_ISGID ≠ 0 then "Ss" else "-x") (mode &&& S_IXGRP ≠ 0))
    ++ (if mode &&& S_IROTH ≠ 0 then "r" else "-")
    ++ (if mode &&& S_IWOTH ≠ 0 then "w" else "-")
    ++ String.singleton
        (pick2 (if mode &&& S_ISVTX ≠ 0 then "Tt" else "-x") (mode &&& S_IXOTH ≠ 0))
    ++ " "

theorem data_if_r (c : Prop) [Decidable c] :
    (if c then "r" else "-").data = [if c then 'r' else '-'] := by
  split <;> rfl

theorem data_if_w (c : Prop) [Decidable c] :
    (if c then "w" else "-").data = [if c then 'w' else '-'] := by
  split <;> rfl

theorem data_singleton (c : Char) : (String.singleton c).data = [c] := rfl

theorem strmode_data (mode : Nat) :
    (strmode mode).data =
      [(file_types (S_IFMT mode)).1,
       (if mode &&& S_IRUSR ≠ 0 then 'r' else '-'),
       (if mode &&& S_IWUSR ≠ 0 then 'w' else '-'),
       pick2 (if mode &&& S_ISUID ≠ 0 then "Ss" else "-x") (mode &&& S_IXUSR ≠ 0),
       (if mode &&& S_IRGRP ≠ 0 then 'r' else '-'),
       (if mode &&& S_IWGRP ≠ 0 then 'w' else '-'),
       pick2 (if mode &&& S_ISGID ≠ 0 then "Ss" else "-x") (mode &&& S_IXGRP ≠ 0),
       (if mode &&& S_IROTH ≠ 0 then 'r' else '-'),
       (if mode &&& S_IWOTH ≠ 0 then 'w' else '-'),
       pick2 (if mode &&& S_ISVTX ≠ 0 then "Tt" else "-x") (mode &&& S_IXOTH ≠ 0),
       ' '] := by
  simp only [strmode, String.data_append, data_if_r, data_if_w, data_singleton]
  rfl

theorem pick2_Ss (b : Bool) : pick2 "Ss" b = if b then 's' else 'S' := by
  cases b <;> rfl

theorem pick2_Tt (b : Bool) : pick2 "Tt" b = if b then 't' else 'T' := by
  cases b <;> rfl

theorem pick2_dashx (b : Bool) : pick2 "-x" b = if b then 'x' else '-' := by
  cases b <;> rfl

/-- Python's `'{0:0o}'.format(m)`: the octal digits of `m`, most significant
first, with no leading zeros (`"0"` for `m = 0`). -/
def formatOctal (m : Nat) : String :=
  String.mk (if m = 0 then ['0'] else ((Nat.digits 8 m).map Nat.digitChar).reverse)

/-- `'0{0:0o}'.format(st.st_mode)` from the source. -/
def mode_octal (m : Nat) : String := "0" ++ formatOctal m

/-- JSON values, with objects as ordered key/value lists (the source builds
records as `OrderedDict`s, so key order is part of the value). -/
inductive Json where
  | null : Json
  | bool (b : Bool) : Json
  | num (n : Int) : Json
  | str (s : String) : Json
  | arr (xs : List Json) : Json
  | obj (kvs : List (String × Json)) : Json

/-- One character of Python's `json` string escaping (`ensure_ascii=True`):
`\"`, `\\`, the short escapes for backspace, tab, newline, form feed and
carriage return, `\uXXXX` for other characters outside `0x20`–`0x7e`, and the
character itself otherwise. -/
def escapeChar (c : Char) : String :=
  if c = '"' then "\\\""
  else if c = '\\' then "\\\\"
  else if c.toNat = 8 then "\\b"
  else if c.toNat = 9 then "\\t"
  else if c.toNat = 10 then "\\n"
  else if c.toNat = 12 then "\\f"
  else if c.toNat = 13 then "\\r"
  else if c.toNat < 0x20 ∨ c.toNat ≥ 0x7f then
    "\\u" ++ String.mk [Nat.digitChar (c.toNat / 4096 % 16),
                        Nat.digitChar (c.toNat / 256 % 16),
                        Nat.digitChar (c.toNat / 16 % 16),
                        Nat.digitChar (c.toNat % 16)]
  else String.singleton c

/-- A JSON string literal: quotes around the escaped characters. -/
def encodeString (s : String) : String :=
  "\"" ++ String.join (s.data.map escapeChar) ++ "\""

/-- `indent * lvl` spaces, the pretty-printer's indentation prefix. -/
def jsonIndentStr (n : Nat) : String := String.mk (List.replicate n ' ')

mutual

/-- `json.dumps` with an explicit indent width and explicit item/key
separators, at nesting level `lvl`.  With a non-`None` indent Python writes
each item separator followed by a newline and the next level's indentation. -/
def encodeJson (isep ksep : String) (indent lvl : Nat) : Json → String
  | .null => "null"
  | .bool b => if b then "true" else "false"
  | .num n => toString n
  | .str s => encodeString s
  | .arr [] => "[]"
  | .arr (x :: xs) =>
      "[\n" ++ jsonIndentStr (indent * (lvl + 1))
        ++ encodeJson isep ksep indent (lvl + 1) x
        ++ encodeArrRest isep ksep indent (lvl + 1) xs
        ++ "\n" ++ jsonIndentStr (indent * lvl) ++ "]"
  | .obj [] => "\x7b\x7d"
  | .obj ((k, v) :: kvs) =>
      "\x7b\n" ++ jsonIndentStr (indent * (lvl + 1))
        ++ encodeString k ++ ksep ++ encodeJson isep ksep indent (lvl + 1) v
        ++ encodeObjRest isep ksep indent (lvl + 1) kvs
        ++ "\n" ++ jsonIndentStr (indent * lvl) ++ "\x7d"

/-- The remaining array items, each preceded by the item separator, a newline
and the current level's indentation. -/
def encodeArrRest (isep ksep : String) (indent lvl : Nat) : List Json → String
  | [] => ""
  | x :: xs =>
      isep ++ "\n" ++ jsonIndentStr (indent * lvl)
        ++ encodeJson isep ksep indent lvl x
        ++ encodeArrRest isep ksep indent lvl xs

/-- The remaining object members, each preceded by the item separator, a
newline and the current level's indentation. -/
def encodeObjRest (isep ksep : String) (indent lvl : Nat) : List (String × Json) → String
  | [] => ""
  | (k, v) :: kvs =>
      isep ++ "\n" ++ jsonIndentStr (indent * lvl)
        ++ encodeString k ++ ksep ++ encodeJson isep ksep indent lvl v
        ++ encodeObjRest isep ksep indent lvl kvs

end

/-- `json.dumps(obj, indent=indent, separators=(isep, ksep))`. -/
def json_dumps (obj : Json) (indent : Nat) (isep ksep : String) : String :=
  encodeJson isep ksep indent 0 obj

/-- The fields of `os.stat`'s result used by the program.  The always-present
POSIX fields come first; the platform-specific attributes read via
`getattr`/`AttributeError` are `Option`s (`none` models the attribute being
absent on the platform).  Python float timestamps are modelled as integers. -/
structure StatResult where
  st_mode : Nat
  st_ino : Nat
  st_dev : Int
  st_nlink : Nat
  st_uid : Nat
  st_gid : Nat
  st_size : Int
  st_atime : Int
  st_mtime : Int
  st_ctime : Int
  st_blocks : Option Int
  st_blksize : Option Int
  st_rdev : Option Int
  st_flags : Option Int
  st_gen : Option Int
  st_birthtime : Option Int
  st_ftype : Option Int
  st_attrs : Option Int
  st_obtype : Option Int
  st_rsize : Option Int
  st_creator : Option Int
  st_type : Option Int
  st_file_attributes : Option Int

/-- The `extra_fields` table from the source: output name paired with the
accessor for the (possibly absent) attribute, in the source's order. -/
def extra_fields : List (String × (StatResult → Option Int)) :=
  [("blocks", StatResult.st_blocks),
   ("block_size", StatResult.st_blksize),
   ("rdev", StatResult.st_rdev),
   ("flags", StatResult.st_flags),
   ("generation", StatResult.st_gen),
   ("creation_time", StatResult.st_birthtime),
   ("ftype", StatResult.st_ftype),
   ("attributes", StatResult.st_attrs),
   ("object_type", StatResult.st_obtype),
   ("real_size", StatResult.st_rsize),
   ("creator", StatResult.st_creator),
   ("st_type", StatResult.st_type),
   ("file_attributes", StatResult.st_file_attributes)]

/-- The `for attr, name in extra_fields` loop: include each field under its
output name when the attribute exists, silently skip it otherwise. -/
def extraEntries (st : StatResult) : List (String × Json) :=
  extra_fields.filterMap (fun p => (p.2 st).map (fun v => (p.1, Json.num v)))

/-- Outcome of `os.stat(filename)`: a result, or a raised exception carrying
its class name and message (`e.__class__.__name__` and `str(e)`). -/
inductive StatOutcome where
  | ok (st : StatResult) : StatOutcome
  | err (cls msg : String) : StatOutcome

/-- The operating-system environment the program runs against: `os.stat`,
`os.path.islink`, and the `pwd`/`grp` identity databases (`none` models a
`KeyError` from `pwd.getpwuid`/`grp.getgrgid`). -/
structure Env where
  statOf : String → StatOutcome
  islink : String → Bool
  pwName : Nat → Option String
  grName : Nat → Option String

/-- An optional name serialized as a JSON string or `null`. -/
def optName : Option String → Json
  | some s => Json.str s
  | none => Json.null

/-- The record built in the `except` branch of `main`'s loop. -/
def errRecord (filename cls msg : String) : Json :=
  Json.obj [("filename", Json.str filename),
            ("success", Json.bool false),
            ("error", Json.obj [("class", Json.str cls),
                                ("message", Json.str msg)])]

/-- The record built in the `else` (success) branch of `main`'s loop. -/
def okRecord (env : Env) (filename : String) (st : StatResult) : Json :=
  Json.obj ([("filename", Json.str filename),
             ("success", Json.bool true),
             ("followed_symlink", Json.bool (env.islink filename)),
             ("filetype", Json.str (file_types (S_IFMT st.st_mode)).2),
             ("mode", Json.num st.st_mode),
             ("mode_octal", Json.str (mode_octal st.st_mode)),
             ("mode_str", Json.str (strmode st.st_mode)),
             ("inode", Json.num st.st_ino),
             ("device", Json.num st.st_dev),
             ("links", Json.num st.st_nlink),
             ("owner", Json.obj [("uid", Json.num st.st_uid),
                                 ("name", optName (env.pwName st.st_uid))]),
             ("group", Json.obj [("gid", Json.num st.st_gid),
                                 ("name", optName (env.grName st.st_gid))]),
             ("size", Json.num st.st_size),
             ("access_time", Json.num st.st_atime),
             ("modify_time", Json.num st.st_mtime),
             ("change_time", Json.num st.st_ctime)]
            ++ extraEntries st)

/-- One iteration's record (`about`): error or success branch of the `try`. -/
def aboutRecord (env : Env) (filename : String) : Json :=
  match env.statOf filename with
  | .err cls msg => errRecord filename cls msg
  | .ok st => okRecord env filename st

/-- Whether `os.stat` succeeds on `filename` in `env`. -/
def statOk (env : Env) (filename : String) : Bool :=
  match env.statOf filename with
  | .ok _ => true
  | .err _ _ => false

/-- One iteration of `main`'s loop over `(stats, ok)`: append the record, and
clear `ok` when the `except` branch ran. -/
def mainStep (env : Env) (acc : List Json × Bool) (filename : String) :
    List Json × Bool :=
  (acc.1 ++ [aboutRecord env filename],
   match env.statOf filename with
   | .err _ _ => false
   | .ok _ => acc.2)

/-- `main`'s loop: fold over `sys.argv[1:]` starting from `stats = []`,
`ok = True`. -/
def mainRun (env : Env) (argv : List String) : List Json × Bool :=
  argv.foldl (mainStep env) ([], true)

/-- The document printed to standard output:
`json.dumps(stats, indent=4, separators=(',', ': '))`. -/
def mainDocument (env : Env) (argv : List String) : String :=
  json_dumps (Json.arr (mainRun env argv).1) 4 "," ": "

/-- The full standard-output text (`print` appends a newline). -/
def mainStdout (env : Env) (argv : List String) : String :=
  mainDocument env argv ++ "\n"

/-- `sys.exit(0 if ok else 1)`. -/
def exitCode (env : Env) (argv : List String) : Nat :=
  if (mainRun env argv).2 then 0 else 1

theorem mainRun_foldl (env : Env) (argv : List String) (acc : List Json × Bool) :
    argv.foldl (mainStep env) acc =
      (acc.1 ++ argv.map (aboutRecord env), acc.2 && argv.all (statOk env)) := by
  induction argv generalizing acc with
  | nil => simp
  | cons f rest ih =>
      rw [List.foldl_cons, ih]
      cases h : env.statOf f <;>
        simp [mainStep, statOk, h, List.all_cons, List.append_assoc]

theorem mainRun_fst (env : Env) (argv : List String) :
    (mainRun env argv).1 = argv.map (aboutRecord env) := by
  rw [mainRun, mainRun_foldl]; simp

theorem mainRun_snd (env : Env) (argv : List String) :
    (mainRun env argv).2 = argv.all (statOk env) := by
  rw [mainRun, mainRun_foldl]; simp

/-- Look up a key in a JSON object (first occurrence; record keys are
distinct). -/
def objLookup (j : Json) (key : String) : Option Json :=
  match j with
  | .obj kvs => (kvs.find? (fun kv => kv.1 == key)).map (fun kv => kv.2)
  | _ => none

/-- The key sequence of a JSON object, in order. -/
def recordKeys (j : Json) : List String :=
  match j with
  | .obj kvs => kvs.map (fun kv => kv.1)
  | _ => []

theorem aboutRecord_filename (env : Env) (f : String) :
    objLookup (aboutRecord env f) "filename" = some (Json.str f) := by
  cases h : env.statOf f <;> simp [aboutRecord, h, errRecord, okRecord, objLookup]

/-- C1: the program produces exactly one record per input path, in input
order (same length, same order), and record `i`'s `filename` field is input
path `i`, unmodified. -/
theorem path_list_one_record_per_path (env : Env) (argv : List String) :
    (mainRun env argv).1.length = argv.length
    ∧ (mainRun env argv).1 = argv.map (aboutRecord env)
    ∧ ∀ i : Nat, i < argv.length →
        objLookup ((mainRun env argv).1.getD i Json.null) "filename" =
          some (Json.str (argv.getD i "")) := by
  refine ⟨by simp [mainRun_fst], mainRun_fst env argv, ?_⟩
  intro i hi
  have hlen : i < (argv.map (aboutRecord env)).length := by simpa using hi
  rw [mainRun_fst, List.getD_eq_getElem _ _ hlen, List.getElem_map,
      aboutRecord_filename, List.getD_eq_getElem _ _ hi]

/-- C1 witness: two paths, two records, filenames in order. -/
theorem path_list_one_record_per_path_witness :
    objLookup ((mainRun
        { statOf := fun _ => StatOutcome.err "OSError" "boom",
          islink := fun _ => false,
          pwName := fun _ => none,
          grName := fun _ => none } ["p", "q"]).1.getD 1 Json.null) "filename" =
      some (Json.str "q") := by
  have h := path_list_one_record_per_path
    { statOf := fun _ => StatOutcome.err "OSError" "boom",
      islink := fun _ => false,
      pwName := fun _ => none,
      grName := fun _ => none } ["p", "q"]
  exact h.2.2 1 (by decide)

/-- C8: with zero path arguments, the document written to standard output is
the two-character empty array and the exit code is 0. -/
theorem empty_argv_empty_array (env : Env) :
    mainDocument env [] = "[]" ∧ exitCode env [] = 0 :=
  ⟨rfl, rfl⟩

/-- C3: in `mode_str`, the owner execute position (position 4, index 3) is
`x`/`S`/`s`/`-` according to the owner-execute and setuid bits, the group
execute position (position 7, index 6) behaves analogously with setgid, and
the other execute position (position 10, index 9) is `t`/`T`/`x`/`-`
according to the other-execute and sticky bits. -/
theorem strmode_execute_positions (mode : Nat) :
    ((strmode mode).data.getD 3 ' ' =
      if mode &&& S_IXUSR ≠ 0 then (if mode &&& S_ISUID ≠ 0 then 's' else 'x')
      else (if mode &&& S_ISUID ≠ 0 then 'S' else '-'))
    ∧ ((strmode mode).data.getD 6 ' ' =
      if mode &&& S_IXGRP ≠ 0 then (if mode &&& S_ISGID ≠ 0 then 's' else 'x')
      else (if mode &&& S_ISGID ≠ 0 then 'S' else '-'))
    ∧ ((strmode mode).data.getD 9 ' ' =
      if mode &&& S_IXOTH ≠ 0 then (if mode &&& S_ISVTX ≠ 0 then 't' else 'x')
      else (if mode &&& S_ISVTX ≠ 0 then 'T' else '-')) := by
  rw [strmode_data]
  refine ⟨?_, ?_, ?_⟩
  · show pick2 (if mode &&& S_ISUID ≠ 0 then "Ss" else "-x") (mode &&& S_IXUSR ≠ 0) = _
    by_cases hs : mode &&& S_ISUID ≠ 0 <;> by_cases hx : mode &&& S_IXUSR ≠ 0 <;>
      simp [hs, hx, pick2_Ss, pick2_dashx]
  · show pick2 (if mode &&& S_ISGID ≠ 0 then "Ss" else "-x") (mode &&& S_IXGRP ≠ 0) = _
    by_cases hs : mode &&& S_ISGID ≠ 0 <;> by_cases hx : mode &&& S_IXGRP ≠ 0 <;>
      simp [hs, hx, pick2_Ss, pick2_dashx]
  · show pick2 (if mode &&& S_ISVTX ≠ 0 then "Tt" else "-x") (mode &&& S_IXOTH ≠ 0) = _
    by_cases hs : mode &&& S_ISVTX ≠ 0 <;> by_cases hx : mode &&& S_IXOTH ≠ 0 <;>
      simp [hs, hx, pick2_Tt, pick2_dashx]

/-- C4: for every successfully stat'ed regular file, `mode_str` has exactly
11 characters, starts with `-` and ends with a space; the record's
`mode_str` field is `strmode` of the record's mode; and concretely a regular
file with permission bits 0644 yields `"-rw-r--r-- "` while a directory with
permission bits 0755 (setgid and sticky clear) yields `"drwxr-xr-x "`. -/
theorem mode_str_regular_file_shape :
    (∀ env f st, env.statOf f = StatOutcome.ok st →
      objLookup (aboutRecord env f) "mode_str" =
        some (Json.str (strmode st.st_mode)))
    ∧ (∀ mode : Nat, S_IFMT mode = S_IFREG →
        (strmode mode).length = 11
        ∧ (strmode mode).data.getD 0 '?' = '-'
        ∧ (strmode mode).data.getD 10 '?' = ' ')
    ∧ strmode 0o100644 = "-rw-r--r-- "
    ∧ strmode 0o40755 = "drwxr-xr-x " := by
  refine ⟨?_, ?_, by rfl, by rfl⟩
  · intro env f st h
    simp [aboutRecord, h, okRecord, objLookup]
  · intro mode h
    refine ⟨?_, ?_, ?_⟩
    · show (strmode mode).data.length = 11
      rw [strmode_data]
      rfl
    · rw [strmode_data]
      show (file_types (S_IFMT mode)).1 = '-'
      rw [h]
      rfl
    · rw [strmode_data]
      rfl

/-- A sample successful stat result: a regular file, mode 0644, owned by
uid/gid 1000, with the Linux extra fields present. -/
def stA : StatResult :=
  ⟨0o100644, 42, 2049, 1, 1000, 1000, 5, 1700000000, 1700000001, 1700000002,
   some 8, some 4096, some 0, none, none, none, none, none, none, none, none,
   none, none⟩

/-- A sample environment: every path stats to `stA` except `"gone"`, which
raises; uid 1000 resolves to `"alice"`, no gid resolves. -/
def envS : Env :=
  { statOf := fun f =>
      if f = "gone" then StatOutcome.err "FileNotFoundError" "No such file or directory"
      else StatOutcome.ok stA,
    islink := fun _ => false,
    pwName := fun u => if u = 1000 then some "alice" else none,
    grName := fun _ => none }

/-- C4 witness: the record-field part at a concrete environment and the
general shape part at mode 0o100644 (a regular file). -/
theorem mode_str_regular_file_shape_witness :
    objLookup (aboutRecord envS "a") "mode_str" =
        some (Json.str (strmode stA.st_mode))
      ∧ (strmode 0o100644).length = 11
      ∧ (strmode 0o100644).data.getD 0 '?' = '-' :=
  ⟨mode_str_regular_file_shape.1 envS "a" stA rfl,
   (mode_str_regular_file_shape.2.1 0o100644 (by decide)).1,
   (mode_str_regular_file_shape.2.1 0o100644 (by decide)).2.1⟩

/-- C5: the lookup table maps the seven fixed file types to their
symbol/name pairs, and any type bits that are not a key of the table map to
`?` / `"unknown"` (on this platform the table's keys also include `S_IFWHT`,
which is 0). -/
theorem file_types_table_and_default :
    file_types S_IFBLK = ('b', "block_device")
    ∧ file_types S_IFCHR = ('c', "char_device")
    ∧ file_types S_IFDIR = ('d', "directory")
    ∧ file_types S_IFIFO = ('p', "FIFO")
    ∧ file_types S_IFLNK = ('l', "symlink")
    ∧ file_types S_IFREG = ('-', "regular_file")
    ∧ file_types S_IFSOCK = ('s', "socket")
    ∧ ∀ mode : Nat,
        S_IFMT mode ∉ ([S_IFBLK, S_IFCHR, S_IFDIR, S_IFIFO, S_IFLNK, S_IFREG,
                        S_IFSOCK, S_IFWHT] : List Nat) →
          file_types (S_IFMT mode) = ('?', "unknown") := by
  refine ⟨rfl, rfl, rfl, rfl, rfl, rfl, rfl, ?_⟩
  intro mode h
  simp only [List.mem_cons, List.mem_singleton, not_or] at h
  obtain ⟨h1, h2, h3, h4, h5, h6, h7, h8, -⟩ := h
  simp only [file_types, if_neg h1, if_neg h2, if_neg h3, if_neg h4, if_neg h5,
             if_neg h6, if_neg h7, if_neg h8]

/-- C5 witness: type bits 0o110000 are not a key, so they map to unknown. -/
theorem file_types_table_and_default_witness :
    file_types (S_IFMT 0o110000) = ('?', "unknown") :=
  file_types_table_and_default.2.2.2.2.2.2.2 0o110000 (by decide)

theorem file_types_symbol_vs_name (fmt : Nat) :
    ((file_types fmt).2 = "regular_file" ↔ (file_types fmt).1 = '-')
    ∧ ((file_types fmt).2 = "directory" ↔ (file_types fmt).1 = 'd') := by
  simp only [file_types]
  split_ifs <;> exact ⟨by decide, by decide⟩

/-- C10: in a successful record, the `filetype` name and the first character
of `mode_str` come from the same lookup-table entry for the record's type
bits; in particular the name is `regular_file` iff the first character is
`-`, and `directory` iff it is `d`. -/
theorem filetype_and_mode_str_agree (env : Env) (f : String) (st : StatResult)
    (h : env.statOf f = StatOutcome.ok st) :
    objLookup (aboutRecord env f) "filetype" =
        some (Json.str (file_types (S_IFMT st.st_mode)).2)
    ∧ objLookup (aboutRecord env f) "mode_str" =
        some (Json.str (strmode st.st_mode))
    ∧ (strmode st.st_mode).data.getD 0 '?' = (file_types (S_IFMT st.st_mode)).1
    ∧ ((file_types (S_IFMT st.st_mode)).2 = "regular_file" ↔
        (strmode st.st_mode).data.getD 0 '?' = '-')
    ∧ ((file_types (S_IFMT st.st_mode)).2 = "directory" ↔
        (strmode st.st_mode).data.getD 0 '?' = 'd') := by
  have hc : (strmode st.st_mode).data.getD 0 '?' =
      (file_types (S_IFMT st.st_mode)).1 := by
    rw [strmode_data, List.getD_cons_zero]
  refine ⟨?_, ?_, hc, ?_, ?_⟩
  · simp [aboutRecord, h, okRecord, objLookup]
  · simp [aboutRecord, h, okRecord, objLookup]
  · rw [hc]; exact (file_types_symbol_vs_name (S_IFMT st.st_mode)).1
  · rw [hc]; exact (file_types_symbol_vs_name (S_IFMT st.st_mode)).2

/-- C10 witness: the agreement at a concrete successful record. -/
theorem filetype_and_mode_str_agree_witness :
    objLookup (aboutRecord envS "a") "filetype" =
      some (Json.str (file_types (S_IFMT stA.st_mode)).2) :=
  (filetype_and_mode_str_agree envS "a" stA rfl).1

/-- C2: the exit code is 0 when every path stats successfully and 1 when at
least one fails, with no other codes; a failing path's record carries
`success: false` and an `error` object with class and (non-null) message;
and every record is a function of the environment and its own path alone
(the output list is a per-path map), so one path's failure leaves the other
records unaffected. -/
theorem exit_code_and_failure_records (env : Env) (argv : List String) :
    (exitCode env argv = 0 ∨ exitCode env argv = 1)
    ∧ (exitCode env argv = 0 ↔ ∀ f ∈ argv, statOk env f = true)
    ∧ (exitCode env argv = 1 ↔ ∃ f ∈ argv, statOk env f = false)
    ∧ (∀ f cls msg, env.statOf f = StatOutcome.err cls msg →
        aboutRecord env f =
          Json.obj [("filename", Json.str f),
                    ("success", Json.bool false),
                    ("error", Json.obj [("class", Json.str cls),
                                        ("message", Json.str msg)])]
        ∧ Json.str msg ≠ Json.null)
    ∧ (mainRun env argv).1 = argv.map (aboutRecord env) := by
  refine ⟨?_, ?_, ?_, ?_, mainRun_fst env argv⟩
  · rw [exitCode]; split <;> simp
  · rw [exitCode, mainRun_snd]
    cases h : argv.all (statOk env)
    · obtain ⟨f, hf, hb⟩ := List.all_eq_false.mp h
      refine iff_of_false (by simp) (fun hall => hb ?_)
      exact hall f hf
    · exact iff_of_true (by simp) (List.all_eq_true.mp h)
  · rw [exitCode, mainRun_snd]
    cases h : argv.all (statOk env)
    · obtain ⟨f, hf, hb⟩ := List.all_eq_false.mp h
      exact iff_of_true (by simp) ⟨f, hf, by simpa using hb⟩
    · refine iff_of_false (by simp) ?_
      rintro ⟨f, hf, hbad⟩
      rw [List.all_eq_true.mp h f hf] at hbad
      cases hbad
  · intro f cls msg h
    exact ⟨by simp [aboutRecord, h, errRecord], by simp⟩

/-- C2 witness: one existing and one missing path give exit code 1 and the
expected error record for the missing path. -/
theorem exit_code_and_failure_records_witness :
    exitCode envS ["a", "gone"] = 1
    ∧ aboutRecord envS "gone" =
        Json.obj [("filename", Json.str "gone"),
                  ("success", Json.bool false),
                  ("error", Json.obj [("class", Json.str "FileNotFoundError"),
                                      ("message",
                                       Json.str "No such file or directory")])] :=
  ⟨(exit_code_and_failure_records envS ["a", "gone"]).2.2.1.mpr
      ⟨"gone", by simp, rfl⟩,
   ((exit_code_and_failure_records envS ["a", "gone"]).2.2.2.1 "gone"
      "FileNotFoundError" "No such file or directory" rfl).1⟩

/-- An environment in which no uid or gid resolves to a name. -/
def envN : Env :=
  { statOf := fun _ => StatOutcome.ok stA,
    islink := fun _ => false,
    pwName := fun _ => none,
    grName := fun _ => none }

/-- C7: if the numeric owner (or group) id of a successfully stat'ed path has
no entry in the identity database, the record's `owner.name` (or
`group.name`) is null while `uid` (or `gid`) is still reported, and the
record still has `success: true`. -/
theorem name_resolution_miss_yields_null (env : Env) (f : String)
    (st : StatResult) (h : env.statOf f = StatOutcome.ok st) :
    (env.pwName st.st_uid = none →
      objLookup (aboutRecord env f) "owner" =
        some (Json.obj [("uid", Json.num st.st_uid), ("name", Json.null)]))
    ∧ (env.grName st.st_gid = none →
      objLookup (aboutRecord env f) "group" =
        some (Json.obj [("gid", Json.num st.st_gid), ("name", Json.null)]))
    ∧ objLookup (aboutRecord env f) "success" = some (Json.bool true) := by
  refine ⟨?_, ?_, ?_⟩
  · intro hn
    simp [aboutRecord, h, okRecord, objLookup, hn, optName]
  · intro hn
    simp [aboutRecord, h, okRecord, objLookup, hn, optName]
  · simp [aboutRecord, h, okRecord, objLookup]

/-- C7 witness: in an environment with empty identity databases, a
successful record reports numeric ids with null names. -/
theorem name_resolution_miss_yields_null_witness :
    objLookup (aboutRecord envN "a") "owner" =
        some (Json.obj [("uid", Json.num stA.st_uid), ("name", Json.null)])
    ∧ objLookup (aboutRecord envN "a") "group" =
        some (Json.obj [("gid", Json.num stA.st_gid), ("name", Json.null)]) :=
  ⟨(name_resolution_miss_yields_null envN "a" stA rfl).1 rfl,
   (name_resolution_miss_yields_null envN "a" stA rfl).2.1 rfl⟩

/-- Reading a string of octal digit characters as an octal numeral. -/
def parseOctal (s : String) : Nat :=
  s.data.foldl (fun a c => 8 * a + (c.toNat - 48)) 0

theorem digitChar_octal_val (d : Nat) (h : d < 8) :
    (Nat.digitChar d).toNat - 48 = d := by
  interval_cases d <;> rfl

theorem foldl_octal_digits (ds : List Nat) (h : ∀ d ∈ ds, d < 8) (a : Nat) :
    ((ds.map Nat.digitChar).reverse).foldl (fun x c => 8 * x + (c.toNat - 48)) a
      = a * 8 ^ ds.length + Nat.ofDigits 8 ds := by
  induction ds generalizing a with
  | nil => simp
  | cons d ds ih =>
      rw [List.map_cons, List.reverse_cons, List.foldl_append,
          ih (fun x hx => h x (List.mem_cons_of_mem d hx))]
      simp only [List.foldl_cons, List.foldl_nil, Nat.ofDigits_cons,
                 List.length_cons,
                 digitChar_octal_val d (h d (List.mem_cons_self d ds))]
      ring

/-- C9: `mode_octal` of a mode is the character `0` followed by the octal
digits of the mode (most significant first), the record's `mode_octal` field
is exactly that string, and reading `mode_octal` back as an octal numeral
recovers the numeric mode. -/
theorem mode_octal_round_trip (m : Nat) :
    (mode_octal m).data =
      '0' :: (if m = 0 then ['0']
              else ((Nat.digits 8 m).map Nat.digitChar).reverse)
    ∧ parseOctal (mode_octal m) = m
    ∧ ∀ env f st, env.statOf f = StatOutcome.ok st →
        objLookup (aboutRecord env f) "mode_octal" =
          some (Json.str (mode_octal st.st_mode)) := by
  have hdata : (mode_octal m).data =
      '0' :: (if m = 0 then ['0']
              else ((Nat.digits 8 m).map Nat.digitChar).reverse) := by
    simp [mode_octal, formatOctal, String.data_append]
  refine ⟨hdata, ?_, ?_⟩
  · rw [parseOctal, hdata]
    by_cases h0 : m = 0
    · subst h0; rfl
    · rw [if_neg h0, List.foldl_cons]
      show ((Nat.digits 8 m).map Nat.digitChar).reverse.foldl
          (fun a c => 8 * a + (c.toNat - 48)) 0 = m
      rw [foldl_octal_digits (Nat.digits 8 m)
            (fun d hd => Nat.digits_lt_base (by norm_num) hd) 0]
      simp [Nat.ofDigits_digits]
  · intro env f st h
    simp [aboutRecord, h, okRecord, objLookup]

/-- C9 witness: the record-field part at a concrete successful record. -/
theorem mode_octal_round_trip_witness :
    objLookup (aboutRecord envS "a") "mode_octal" =
      some (Json.str (mode_octal stA.st_mode)) :=
  (mode_octal_round_trip 0).2.2 envS "a" stA rfl

/-- An environment in which every path fails to stat. -/
def envB : Env :=
  { statOf := fun _ =>
      StatOutcome.err "FileNotFoundError" "No such file or directory",
    islink := fun _ => false,
    pwName := fun _ => none,
    grName := fun _ => none }

/-- C6 counterexample: at a concrete two-path input the document the program
prints differs from the same document serialized with `", "` as the item
separator (the program passes `','`, so items are separated by a comma
directly followed by the newline, with no space). -/
theorem output_item_separator_cex :
    mainDocument envB ["x", "y"] ≠
      json_dumps (Json.arr (mainRun envB ["x", "y"]).1) 4 ", " ": " := by
  decide

theorem filterMap_entry_keys (st : StatResult)
    (l : List (String × (StatResult → Option Int))) :
    (l.filterMap (fun p => (p.2 st).map (fun v => (p.1, Json.num v)))).map
        Prod.fst
      = (l.filter (fun p => (p.2 st).isSome)).map Prod.fst := by
  induction l with
  | nil => rfl
  | cons p l ih =>
      cases hp : p.2 st <;>
        simp [List.filterMap_cons, List.filter_cons, hp, ih]

/-- C6 (amended): the output is the single JSON array of the per-path
records, pretty-printed with 4-space indentation, with `","` as the item
separator (each one followed by a newline and indentation) and `": "` as the
key separator; each record's keys are in the fixed order of the data model —
`filename`, `success`, then either the error object with keys
`class`, `message`, or the success fields ending with exactly the extras the
platform exposes, in table order. -/
theorem output_serialization_format (env : Env) (argv : List String) :
    mainStdout env argv = mainDocument env argv ++ "\n"
    ∧ mainDocument env argv =
        json_dumps (Json.arr (argv.map (aboutRecord env))) 4 "," ": "
    ∧ (∀ f cls msg, env.statOf f = StatOutcome.err cls msg →
        recordKeys (aboutRecord env f) = ["filename", "success", "error"]
        ∧ objLookup (aboutRecord env f) "error" =
            some (Json.obj [("class", Json.str cls),
                            ("message", Json.str msg)]))
    ∧ (∀ f st, env.statOf f = StatOutcome.ok st →
        recordKeys (aboutRecord env f) =
          ["filename", "success", "followed_symlink", "filetype", "mode",
           "mode_octal", "mode_str", "inode", "device", "links", "owner",
           "group", "size", "access_time", "modify_time", "change_time"]
          ++ (extra_fields.filter (fun p => (p.2 st).isSome)).map Prod.fst) := by
  refine ⟨rfl, ?_, ?_, ?_⟩
  · rw [mainDocument, mainRun_fst]
  · intro f cls msg h
    constructor
    · simp [aboutRecord, h, errRecord, recordKeys]
    · simp [aboutRecord, h, errRecord, objLookup]
  · intro f st h
    have hkeys := filterMap_entry_keys st extra_fields
    simp [aboutRecord, h, okRecord, recordKeys, extraEntries, hkeys]

/-- C6 witness: the key order of a concrete failing record and a concrete
successful record. -/
theorem output_serialization_format_witness :
    recordKeys (aboutRecord envB "x") = ["filename", "success", "error"]
    ∧ recordKeys (aboutRecord envS "a") =
        ["filename", "success", "followed_symlink", "filetype", "mode",
         "mode_octal", "mode_str", "inode", "device", "links", "owner",
         "group", "size", "access_time", "modify_time", "change_time"]
        ++ (extra_fields.filter (fun p => (p.2 stA).isSome)).map Prod.fst :=
  ⟨((output_serialization_format envB ["x"]).2.2.1 "x" "FileNotFoundError"
      "No such file or directory" rfl).1,
   (output_serialization_format envS ["a"]).2.2.2 "a" stA rfl⟩
